import Mathlib

/-!
A verification development for the Itinerary Scheduling & Route Optimization
Engine of the Personalised Trip Planner repository.  The definitions below are
a shallow embedding of `src/agents/itinerary_planner.py` and the data models of
`src/schemas/`:

* Python `int` becomes `Int`; Python `Decimal` (exact decimal arithmetic)
  becomes `ℚ`; Python `float` fields that feed only geometric/trigonometric
  computations stay `Float`, while the small multiplicative factors of the
  duration model (1.3, 1.1, 0.8, ...) are embedded as exact rationals, since
  none of the statements proved here depend on the last-bit rounding of those
  products.
* Python `None` becomes `Option.none`; a code path that raises an exception
  which aborts the surrounding computation is embedded as returning `none`.
* Python truthiness tests on optional numbers (`if poi.rating:`) are embedded
  as "present and nonzero".
* External collaborators (the Google-Maps directions client, the Vertex-AI
  timing suggestion service) are embedded as function-valued parameters,
  mirroring how the agent receives them as injected dependencies.
-/

namespace TripPlanner

/-- `schemas.base_models.Coordinates`: geographic coordinates. -/
structure Coordinates where
  latitude : Float
  longitude : Float

/-- `schemas.poi_models.POI`, restricted to the fields the scheduling engine
reads.  `category` carries the string value of the `POICategory` enum (the
code always compares `poi.category.value`).  Metadata fields never read by the
scheduler (photos, amenities, address, ...) are elided. -/
structure POI where
  name : String
  category : String
  coordinates : Coordinates
  rating : Option ℚ
  price_level : Option Int
  estimated_visit_duration : Option Int

/-- `schemas.weather_transport_models.TransportOption`, restricted to the
fields produced by `_calculate_transport`. -/
structure TransportOption where
  mode : String
  duration_minutes : Int
  distance_km : ℚ
  cost : ℚ
  route_description : String

/-- `schemas.trip_models.TripRequest`, restricted to the fields the planner
reads.  Dates are embedded as integer day ordinals. -/
structure TripRequest where
  destination : String
  start_date : Int
  end_date : Int
  number_of_travelers : Int
  group_type : String

/-- `TripRequest.duration_days`: `(end_date - start_date).days + 1`. -/
def TripRequest.duration_days (tr : TripRequest) : Int :=
  tr.end_date - tr.start_date + 1

/-- `schemas.itinerary_models.ItineraryItem`.  The free-text `notes` field is
kept but the presentation-only string assembled by
`_generate_enhanced_item_notes` is not modelled (no statement below reads it). -/
structure ItineraryItem where
  day : Int
  time_slot : String
  poi : POI
  estimated_duration : Int
  transport_to_next : Option TransportOption
  cost_estimate : Option ℚ
  notes : Option String

/-- `schemas.weather_transport_models.WeatherInfo`, restricted to the fields
the scheduler can read. -/
structure WeatherInfo where
  condition : String
  temperature_high : Option ℚ

/-- `schemas.itinerary_models.DayPlan`. -/
structure DayPlan where
  day : Int
  date : Int
  items : List ItineraryItem
  weather : Option WeatherInfo
  total_estimated_cost : ℚ
  notes : Option String

/-- `schemas.itinerary_models.Itinerary`.  The `created_at`/`updated_at`
timestamps are elided (never read by the planner logic). -/
structure Itinerary where
  id : String
  trip_request : TripRequest
  days : List DayPlan
  total_cost : ℚ
  version : Int
  metadata : List (String × String)

/-- Dictionary lookup with a default, mirroring Python `dict.get(key, dflt)`
over the inline literal tables of the source. -/
def lookupD {α : Type} (table : List (String × α)) (key : String) (dflt : α) : α :=
  match table.find? (fun p => p.1 == key) with
  | some p => p.2
  | none => dflt

/-- Python `int()` applied to a nonnegative-or-negative rational: truncation
toward zero. -/
def ratTrunc (q : ℚ) : Int :=
  if 0 ≤ q then ⌊q⌋ else ⌈q⌉

/-- The `base_durations` table of `_estimate_visit_duration` (minutes by
category string). -/
def base_durations : List (String × Int) :=
  [("restaurant", 90), ("attraction", 120), ("museum", 150), ("park", 90),
   ("shopping", 120), ("nightlife", 180), ("accommodation", 30),
   ("transport", 15), ("entertainment", 180), ("religious", 60),
   ("beach", 180), ("adventure", 240), ("tourist_attraction", 120),
   ("amusement_park", 240), ("zoo", 180), ("aquarium", 150)]

/-- The `group_multipliers` table of `_estimate_visit_duration`.  The float
literals 1.3, 1.0, 0.8, 1.1, 0.9 are embedded as exact rationals. -/
def group_multipliers : List (String × ℚ) :=
  [("family", 13/10), ("couple", 1), ("solo", 4/5),
   ("friends", 11/10), ("business", 9/10)]

/-- `ItineraryPlannerAgent._estimate_visit_duration` (lines 725-772).  The
source's `return int(duration)` is indented inside the `if poi.rating:` block,
so whenever the rating is absent (or zero, which is falsy in Python) and no
explicit override is present the Python function falls off the end and
returns `None`; that path is embedded as `none`. -/
def estimate_visit_duration (poi : POI) (group_type : String) : Option Int :=
  if poi.estimated_visit_duration.getD 0 ≠ 0 then
    poi.estimated_visit_duration
  else
    let base_duration : ℚ := (lookupD base_durations poi.category 120 : Int)
    let duration := base_duration * lookupD group_multipliers group_type 1
    match poi.rating with
    | none => none
    | some r =>
      if r ≠ 0 then
        let adjusted :=
          if r ≥ 9/2 then duration * (6/5)
          else if r ≥ 4 then duration * (11/10)
          else if r < 3 then duration * (4/5)
          else duration
        some (ratTrunc adjusted)
      else none

/-- A POI with no explicit visit-duration override and no rating (category
museum, as produced by the discovery collaborator when Google Places returns
no rating). -/
def unratedMuseum : POI :=
  { name := "City Museum", category := "museum",
    coordinates := { latitude := 12.97, longitude := 77.59 },
    rating := none, price_level := none, estimated_visit_duration := none }

/-- The claim C1 states that the duration model resolves a defined positive
integer for every POI without an explicit override, in particular for POIs
carrying no rating.  The code violates this: for a POI with no override and
no rating, `_estimate_visit_duration` returns Python `None` (the
`return int(duration)` statement is mis-indented inside the `if poi.rating:`
block), embedded here as `none`; callers such as
`_distribute_pois_across_days` then crash on `None + int`. -/
theorem estimate_visit_duration_none_on_unrated :
    estimate_visit_duration unratedMuseum "couple" = none := by
  rfl

/-- `math.pi` as the IEEE-754 double used by CPython. -/
def mathPi : Float := 3.141592653589793

/-- `math.radians`: degrees to radians. -/
def radians (x : Float) : Float := x * (mathPi / 180)

/-- `math.degrees`: radians to degrees. -/
def degrees (x : Float) : Float := x * (180 / mathPi)

/-- Python `int()` on a float: truncation toward zero (all values converted in
this development are small in magnitude, far below the saturation range of
the 64-bit conversion used here). -/
def floatToInt (f : Float) : Int :=
  if f < 0 then -(Int.ofNat (-f).toUInt64.toNat) else Int.ofNat f.toUInt64.toNat

/-- `ItineraryPlannerAgent._calculate_sunrise_sunset` (lines 493-527).  The
source wraps the computation in `try/except`; the only statements that can
raise are `math.acos` on an argument of absolute value above 1 (ValueError)
and `int()` on a NaN (ValueError), so the `except` branch — which returns the
fixed defaults (390, 1110) — is taken exactly when the `acos` argument is out
of the closed domain [-1, 1] or is NaN.  `day_of_year` is
`date_obj.timetuple().tm_yday`. -/
def calculate_sunrise_sunset (latitude : Float) (day_of_year : Nat) : Int × Int :=
  let lat := radians latitude
  let declinationDeg := 23.45 * Float.sin (radians (360 * (284 + day_of_year.toFloat) / 365))
  let declination := radians declinationDeg
  let acosArg := -(Float.tan lat) * Float.tan declination
  if acosArg < -1 || acosArg > 1 || acosArg.isNaN then
    (390, 1110)
  else
    let hour_angle := degrees (Float.acos acosArg)
    let sunrise_decimal := 12 - hour_angle / 15
    let sunset_decimal := 12 + hour_angle / 15
    let sunrise_minutes := floatToInt (sunrise_decimal * 60)
    let sunset_minutes := floatToInt (sunset_decimal * 60)
    (max 300 (min sunrise_minutes 420), max 1020 (min sunset_minutes 1200))

/-- Both the fallback pair (390, 1110) and any clamped pair lie in the ranges
[300, 420] × [1020, 1200]. -/
theorem clamp_pair_bounds (c : Prop) [Decidable c] (x y : Int) :
    300 ≤ (if c then ((390 : Int), (1110 : Int))
           else (max 300 (min x 420), max 1020 (min y 1200))).1 ∧
    (if c then ((390 : Int), (1110 : Int))
     else (max 300 (min x 420), max 1020 (min y 1200))).1 ≤ 420 ∧
    1020 ≤ (if c then ((390 : Int), (1110 : Int))
            else (max 300 (min x 420), max 1020 (min y 1200))).2 ∧
    (if c then ((390 : Int), (1110 : Int))
     else (max 300 (min x 420), max 1020 (min y 1200))).2 ≤ 1200 := by
  split
  · exact ⟨by norm_num, by norm_num, by norm_num, by norm_num⟩
  · exact ⟨le_max_left _ _, max_le (by norm_num) (min_le_right _ _),
      le_max_left _ _, max_le (by norm_num) (min_le_right _ _)⟩

/-- The claim C4: for every coordinate latitude and calendar day, the solar
time estimator returns sunrise in [300, 420] and sunset in [1020, 1200]; the
numerical-failure fallback (390, 1110) also lies inside those ranges, so the
postcondition holds on both the clamp path and the fallback path. -/
theorem calculate_sunrise_sunset_in_range (latitude : Float) (day_of_year : Nat) :
    300 ≤ (calculate_sunrise_sunset latitude day_of_year).1 ∧
    (calculate_sunrise_sunset latitude day_of_year).1 ≤ 420 ∧
    1020 ≤ (calculate_sunrise_sunset latitude day_of_year).2 ∧
    (calculate_sunrise_sunset latitude day_of_year).2 ≤ 1200 := by
  unfold calculate_sunrise_sunset
  exact clamp_pair_bounds _ _ _

/-- `ItineraryPlannerAgent._distance` (lines 988-1008): haversine great-circle
distance in kilometres between two (latitude, longitude) pairs. -/
def haversine_distance (coord1 coord2 : Float × Float) : Float :=
  let lat1 := coord1.1
  let lon1 := coord1.2
  let lat2 := coord2.1
  let lon2 := coord2.2
  let earthRadius : Float := 6371
  let dlat := radians (lat2 - lat1)
  let dlon := radians (lon2 - lon1)
  let a := Float.sin (dlat / 2) ^ 2 +
    Float.cos (radians lat1) * Float.cos (radians lat2) * Float.sin (dlon / 2) ^ 2
  let c := 2 * Float.atan2 (Float.sqrt a) (Float.sqrt (1 - a))
  earthRadius * c

/-- Python `min(iterable, key=f)` scanning left to right, keeping the current
best and replacing it only on a strictly smaller key: ties go to the earlier
element.  (In the source the iterable is a CPython set of small ints, whose
iteration order is ascending, so "earlier" means "lower index" — the
deterministic tie-break the spec describes.) -/
def argmin_go (f : Nat → Float) (best : Nat) : List Nat → Nat
  | [] => best
  | x :: xs => argmin_go f (if f x < f best then x else best) xs

/-- The `while unvisited:` loop of `_nearest_neighbor_tsp`: repeatedly move to
the nearest unvisited index.  The unvisited set is embedded as an ascending
list; the fuel argument equals the size of the unvisited set, which decreases
by exactly one per iteration. -/
def nn_go (coords : List (Float × Float)) : Nat → Nat → List Nat → List Nat
  | current, fuel + 1, x :: xs =>
    let nearest := argmin_go
      (fun i => haversine_distance (coords.getD current (0, 0)) (coords.getD i (0, 0))) x xs
    nearest :: nn_go coords nearest fuel ((x :: xs).erase nearest)
  | _, _, _ => []

/-- `ItineraryPlannerAgent._nearest_neighbor_tsp` (lines 970-986): nearest
neighbor route ordering, starting from index 0. -/
def nearest_neighbor_tsp (coordinates : List (Float × Float)) : List Nat :=
  if coordinates.length ≤ 1 then List.range coordinates.length
  else
    0 :: nn_go coordinates 0 (coordinates.length - 1)
      ((List.range coordinates.length).erase 0)

theorem argmin_go_mem (f : Nat → Float) (best : Nat) (l : List Nat) :
    argmin_go f best l = best ∨ argmin_go f best l ∈ l := by
  induction l generalizing best with
  | nil => exact Or.inl rfl
  | cons x xs ih =>
    rw [argmin_go]
    rcases ih (if f x < f best then x else best) with h | h
    · rw [h]
      split
      · exact Or.inr (List.mem_cons_self _ _)
      · exact Or.inl rfl
    · exact Or.inr (List.mem_cons_of_mem _ h)

/-- The nearest-neighbor loop emits a permutation of the unvisited set it is
given, provided the fuel equals the size of that set. -/
theorem nn_go_perm (coords : List (Float × Float)) :
    ∀ (fuel : Nat) (unvisited : List Nat) (current : Nat),
      fuel = unvisited.length → (nn_go coords current fuel unvisited).Perm unvisited := by
  intro fuel
  induction fuel with
  | zero =>
    intro unvisited current h
    rcases unvisited with _ | ⟨x, xs⟩
    · exact List.Perm.refl _
    · simp at h
  | succ n ih =>
    intro unvisited current h
    rcases unvisited with _ | ⟨x, xs⟩
    · simp at h
    · rw [nn_go]
      have hmem : argmin_go
          (fun i => haversine_distance (coords.getD current (0, 0)) (coords.getD i (0, 0))) x xs
          ∈ x :: xs := by
        rcases argmin_go_mem
            (fun i => haversine_distance (coords.getD current (0, 0)) (coords.getD i (0, 0)))
            x xs with hh | hh
        · rw [hh]; exact List.mem_cons_self _ _
        · exact List.mem_cons_of_mem _ hh
      have hlen : n = ((x :: xs).erase (argmin_go
          (fun i => haversine_distance (coords.getD current (0, 0)) (coords.getD i (0, 0)))
          x xs)).length := by
        rw [List.length_erase_of_mem hmem]
        simp at h
        simp [h]
      have htail := ih _ (argmin_go
        (fun i => haversine_distance (coords.getD current (0, 0)) (coords.getD i (0, 0)))
        x xs) hlen
      exact (htail.cons _).trans (List.perm_cons_erase hmem).symm

/-- The claim C3: for every list of POI coordinates, the route sequencer's
output is a permutation of the input indices — it has the same length as the
input and every index below the input length occurs exactly once. -/
theorem nearest_neighbor_tsp_perm (coordinates : List (Float × Float)) :
    (nearest_neighbor_tsp coordinates).Perm (List.range coordinates.length) ∧
    (nearest_neighbor_tsp coordinates).length = coordinates.length ∧
    ∀ i, i < coordinates.length → (nearest_neighbor_tsp coordinates).count i = 1 := by
  have hperm : (nearest_neighbor_tsp coordinates).Perm (List.range coordinates.length) := by
    unfold nearest_neighbor_tsp
    split
    · exact List.Perm.refl _
    · rename_i hgt
      have hpos : 0 < coordinates.length := by omega
      have h0 : 0 ∈ List.range coordinates.length := List.mem_range.mpr hpos
      have hlen : coordinates.length - 1 =
          ((List.range coordinates.length).erase 0).length := by
        rw [List.length_erase_of_mem h0, List.length_range]
      have htail := nn_go_perm coordinates (coordinates.length - 1)
        ((List.range coordinates.length).erase 0) 0 hlen
      exact (htail.cons 0).trans (List.perm_cons_erase h0).symm
  refine ⟨hperm, ?_, ?_⟩
  · rw [hperm.length_eq, List.length_range]
  · intro i hi
    rw [hperm.count_eq]
    exact List.count_eq_one_of_mem (List.nodup_range _) (List.mem_range.mpr hi)

/-- The claim C10: for every non-empty coordinate list, the permutation
returned by the nearest-neighbor route sequencer begins with index 0 (the
first POI of the day is never changed by route optimization). -/
theorem nearest_neighbor_tsp_head (coordinates : List (Float × Float))
    (h : coordinates ≠ []) : (nearest_neighbor_tsp coordinates).head? = some 0 := by
  unfold nearest_neighbor_tsp
  split
  · rename_i hle
    have hpos : 0 < coordinates.length := List.length_pos.mpr h
    have h1 : coordinates.length = 1 := by omega
    rw [h1]
    rfl
  · rfl

/-- Witness for C10 at a concrete one-element coordinate list. -/
theorem nearest_neighbor_tsp_head_witness :
    (nearest_neighbor_tsp [(12.97, 77.59)]).head? = some 0 :=
  nearest_neighbor_tsp_head [(12.97, 77.59)] (List.cons_ne_nil _ _)

/-- The result of `maps_tool.get_directions(...)` after the planner's checks
`directions and directions[0].get("legs")`: the first leg of the first route,
with the distance value in metres and the duration value in seconds. -/
structure DirectionsLeg where
  distance_value : ℚ
  duration_value : Int
  summary : String

/-- `tools.MapsApiTool`, the transport-estimation collaborator: an external
Google-Maps client, embedded as an abstract directions oracle.  A `none`
result covers an empty/absent route list, a missing leg, or any exception
raised by the network call. -/
structure MapsApiTool where
  get_directions : Float × Float → Float × Float → Option DirectionsLeg

/-- `ItineraryPlannerAgent._calculate_transport` (lines 799-860).  Walking is
the returned mode with cost 0; the source additionally appends to
`route_description` a presentation string enumerating taxi/public/rideshare
alternatives with locally formatted prices, which is elided here (it is pure
display text).  The surrounding `try/except` returning `None` on any failure
is captured by the oracle returning `none`. -/
def calculate_transport (maps_tool : MapsApiTool) (from_poi to_poi : POI) :
    Option TransportOption :=
  match maps_tool.get_directions
      (from_poi.coordinates.latitude, from_poi.coordinates.longitude)
      (to_poi.coordinates.latitude, to_poi.coordinates.longitude) with
  | none => none
  | some leg =>
    let distance_km : ℚ := leg.distance_value / 1000
    let walking_duration : Int := leg.duration_value / 60
    some { mode := "walking", duration_minutes := walking_duration,
           distance_km := distance_km, cost := 0,
           route_description := leg.summary }

/-- The reordering `[items[i] for i in optimized_order]`; an out-of-range
index would raise IndexError, embedded as `none`. -/
def reorder_items (items : List ItineraryItem) (order : List Nat) :
    Option (List ItineraryItem) :=
  order.mapM (fun i => items[i]?)

/-- `ItineraryPlannerAgent._optimize_daily_route` (lines 944-968).  Lists of
at most 2 items are returned unchanged; otherwise the nearest-neighbor order
is applied; the `except` branch returns the original items on any failure.
The `maps_tool` parameter of the source is never read by this method. -/
def optimize_daily_route (items : List ItineraryItem) : List ItineraryItem :=
  if items.length ≤ 2 then items
  else
    let coordinates := items.map
      (fun it => (it.poi.coordinates.latitude, it.poi.coordinates.longitude))
    match reorder_items items (nearest_neighbor_tsp coordinates) with
    | some reordered => reordered
    | none => items

/-- The claim C9: for every non-empty list of at most 2 items, the route
sequencer keeps the items in their input order (identity permutation). -/
theorem optimize_daily_route_short_identity (items : List ItineraryItem)
    (hne : items ≠ []) (hlen : items.length ≤ 2) :
    optimize_daily_route items = items := by
  unfold optimize_daily_route
  rw [if_pos hlen]

/-- A concrete POI with an explicit visit-duration override. -/
def ratedPark : POI :=
  { name := "Lalbagh Botanical Garden", category := "park",
    coordinates := { latitude := 12.95, longitude := 77.58 },
    rating := some (9/2), price_level := some 1, estimated_visit_duration := some 60 }

/-- A concrete scheduled item. -/
def exampleItem : ItineraryItem :=
  { day := 1, time_slot := "09:00 - 10:00 (60 min)", poi := ratedPark,
    estimated_duration := 60, transport_to_next := none,
    cost_estimate := some 5, notes := none }

/-- Witness for C9 at a concrete one-item day. -/
theorem optimize_daily_route_short_identity_witness :
    [exampleItem] ≠ [] ∧ [exampleItem].length ≤ 2 ∧
    optimize_daily_route [exampleItem] = [exampleItem] :=
  ⟨List.cons_ne_nil _ _, by decide,
    optimize_daily_route_short_identity [exampleItem] (List.cons_ne_nil _ _) (by decide)⟩

/-- `ItineraryPlannerAgent._calculate_day_cost` (lines 936-938): the sum of
the items' cost estimates, an absent estimate counting as `Decimal("0")`. -/
def calculate_day_cost (items : List ItineraryItem) : ℚ :=
  (items.map (fun item => item.cost_estimate.getD 0)).sum

/-- `ItineraryPlannerAgent._calculate_total_cost` (lines 940-942): the sum of
the days' total estimated costs. -/
def calculate_total_cost (daily_plans : List DayPlan) : ℚ :=
  (daily_plans.map (fun day => day.total_estimated_cost)).sum

/-- The claim C5: for every built itinerary — i.e. whenever every day's
`total_estimated_cost` was produced by `_calculate_day_cost` over its items,
as `_create_daily_plans` (line 301) and `optimize_itinerary` (line 229) do —
the trip total computed by `_calculate_total_cost` equals the sum of all item
cost estimates over all days (absent estimates counting as zero): no double
counting and no omission. -/
theorem total_cost_eq_sum_of_item_costs (days : List DayPlan)
    (h : ∀ d ∈ days, d.total_estimated_cost = calculate_day_cost d.items) :
    calculate_total_cost days =
      (((days.map (fun d => d.items)).flatten).map (fun item => item.cost_estimate.getD 0)).sum := by
  induction days with
  | nil => rfl
  | cons d rest ih =>
    have hd : d.total_estimated_cost = calculate_day_cost d.items :=
      h d (List.mem_cons_self _ _)
    have hrest : ∀ x ∈ rest, x.total_estimated_cost = calculate_day_cost x.items :=
      fun x hx => h x (List.mem_cons_of_mem _ hx)
    have hrec := ih hrest
    simp only [calculate_total_cost] at hrec
    simp only [calculate_total_cost, List.map_cons, List.sum_cons, List.flatten_cons,
      List.map_append, List.sum_append]
    rw [hd, hrec]
    simp only [calculate_day_cost]

/-- A concrete one-day plan whose day total was computed from its items. -/
def exampleDayPlan : DayPlan :=
  { day := 1, date := 0, items := [exampleItem], weather := none,
    total_estimated_cost := calculate_day_cost [exampleItem], notes := none }

/-- Witness for C5 at a concrete one-day itinerary. -/
theorem total_cost_eq_sum_of_item_costs_witness :
    (∀ d ∈ [exampleDayPlan], d.total_estimated_cost = calculate_day_cost d.items) ∧
    calculate_total_cost [exampleDayPlan] =
      ((([exampleDayPlan].map (fun d => d.items)).flatten).map
        (fun item => item.cost_estimate.getD 0)).sum := by
  have h : ∀ d ∈ [exampleDayPlan], d.total_estimated_cost = calculate_day_cost d.items := by
    intro d hd
    simp only [List.mem_singleton] at hd
    rw [hd]
    rfl
  exact ⟨h, total_cost_eq_sum_of_item_costs [exampleDayPlan] h⟩

/-- `daily_time_budget` of `_distribute_pois_across_days`: 7 hours in
minutes. -/
def daily_time_budget : Int := 420

/-- `meal_time_reserved`: 2 hours reserved for meals. -/
def meal_time_reserved : Int := 120

/-- `available_time = daily_time_budget - meal_time_reserved`. -/
def available_time : Int := daily_time_budget - meal_time_reserved

/-- `poi.estimated_visit_duration or self._estimate_visit_duration(poi, g)`:
the Python `or` takes the override when it is truthy (present and nonzero),
else the estimate — which may itself be `None`. -/
def resolved_duration (poi : POI) (group_type : String) : Option Int :=
  if poi.estimated_visit_duration.getD 0 ≠ 0 then poi.estimated_visit_duration
  else estimate_visit_duration poi group_type

/-- `buffer_time = 15 if day_pois else 0` (line 344): 15 minutes between
activities, zero before the day's first activity. -/
def buffer_time (day_pois : List POI) : Int :=
  if day_pois.isEmpty then 0 else 15

/-- The inner `for poi in remaining_pois:` loop of
`_distribute_pois_across_days` (lines 340-355) for one day.  Arguments:
remaining pool (in order), `day_time_used`, and the POIs already placed in
the day (accumulated in reverse).  In the source, `total_time_needed` is
`poi_duration + buffer_time`; a POI whose duration resolves to `None` makes
`poi_duration + buffer_time` raise a TypeError that aborts the whole build,
embedded as `none`.  Returns the day's POIs and the new remaining pool
(scheduled POIs removed, order kept); the loop breaks once the day holds 6
activities. -/
def fill_day : List POI → Int → List POI → Option (List POI × List POI)
  | [], _, day_pois => some (day_pois.reverse, [])
  | poi :: rest, day_time_used, day_pois =>
    match resolved_duration poi "couple" with
    | none => none
    | some poi_duration =>
      if day_time_used + (poi_duration + buffer_time day_pois) ≤ available_time then
        if 6 ≤ (poi :: day_pois).length then
          some ((poi :: day_pois).reverse, rest)
        else
          fill_day rest (day_time_used + (poi_duration + buffer_time day_pois))
            (poi :: day_pois)
      else
        match fill_day rest day_time_used day_pois with
        | none => none
        | some (dp, rem) => some (dp, poi :: rem)

/-- The `for day in range(num_days):` first pass of
`_distribute_pois_across_days` (lines 329-361): fill each day in order from
the remaining pool, returning the per-day lists and the leftover POIs. -/
def distribute_first_pass : List POI → Nat → Option (List (List POI) × List POI)
  | remaining, 0 => some ([], remaining)
  | remaining, num_days + 1 =>
    match fill_day remaining 0 [] with
    | none => none
    | some (day_pois, rem) =>
      match distribute_first_pass rem num_days with
      | none => none
      | some (days, leftover) => some (day_pois :: days, leftover)

/-- One step of the leftover pass (lines 364-368): append the POI to the
first day currently holding fewer than 4 activities; drop it when no such
day exists. -/
def redistribute_one : List (List POI) → POI → List (List POI)
  | [], _ => []
  | d :: rest, poi =>
    if d.length < 4 then (d ++ [poi]) :: rest else d :: redistribute_one rest poi

/-- The leftover-redistribution pass over all leftover POIs in order. -/
def redistribute (days : List (List POI)) (leftover : List POI) : List (List POI) :=
  leftover.foldl redistribute_one days

/-- `ItineraryPlannerAgent._distribute_pois_across_days` (lines 314-370).
The `if not pois: return {}` early exit returns a dict with no day keys,
which every reader accesses through `.get(day, [])`; it is embedded as the
observationally equal all-empty allocation. -/
def distribute_pois_across_days (pois : List POI) (num_days : Nat) :
    Option (List (List POI)) :=
  if pois.isEmpty then some (List.replicate num_days [])
  else
    match distribute_first_pass pois num_days with
    | none => none
    | some (days, leftover) => some (redistribute days leftover)

/-- The time a day's assignment consumes: each POI's resolved duration plus a
15-minute inter-activity buffer, the buffer being zero before the day's first
activity — i.e. the value `day_time_used` reaches after the first pass placed
exactly these POIs. -/
def day_cost (day_pois : List POI) : Int :=
  match day_pois with
  | [] => 0
  | _ =>
    ((day_pois.map (fun p => (resolved_duration p "couple").getD 0)).sum)
      + 15 * ((day_pois.length : Int) - 1)

theorem buffer_time_reverse (l : List POI) : buffer_time l.reverse = buffer_time l := by
  cases l with
  | nil => rfl
  | cons x xs => simp [buffer_time]

theorem day_cost_snoc (xs : List POI) (p : POI) :
    day_cost (xs ++ [p]) = day_cost xs + (resolved_duration p "couple").getD 0 +
      buffer_time xs := by
  cases xs with
  | nil => simp [day_cost, buffer_time]
  | cons y ys =>
    have hb : buffer_time (y :: ys) = 15 := by simp [buffer_time]
    simp only [day_cost, List.cons_append, List.map_cons, List.map_append,
      List.sum_cons, List.sum_append, List.map_nil, List.sum_nil, List.length_cons,
      List.length_append, List.length_nil, hb]
    push_cast
    ring

/-- Invariant of the inner day-filling loop: starting from a partial day that
already uses `used ≤ available_time` minutes and holds fewer than 6 POIs, a
successful pass produces a day within the time budget holding at most 6
activities. -/
theorem fill_day_spec (pois : List POI) :
    ∀ (used : Int) (acc : List POI) (dp rem : List POI),
      fill_day pois used acc = some (dp, rem) →
      used = day_cost acc.reverse →
      used ≤ available_time →
      acc.length < 6 →
      day_cost dp ≤ available_time ∧ dp.length ≤ 6 := by
  induction pois with
  | nil =>
    intro used acc dp rem h hused hle hlen
    rw [fill_day] at h
    simp only [Option.some.injEq, Prod.mk.injEq] at h
    obtain ⟨hdp, hrem⟩ := h
    subst hdp
    constructor
    · rw [← hused]; exact hle
    · rw [List.length_reverse]; omega
  | cons poi rest ih =>
    intro used acc dp rem h hused hle hlen
    rw [fill_day] at h
    split at h
    · exact absurd h (by simp)
    · rename_i poi_duration hres
      have hcost : day_cost ((poi :: acc).reverse) =
          used + (poi_duration + buffer_time acc) := by
        rw [List.reverse_cons, day_cost_snoc, ← hused, hres, buffer_time_reverse]
        simp only [Option.getD_some]
        ring
      split at h
      · rename_i hfit
        split at h
        · rename_i hsix
          simp only [Option.some.injEq, Prod.mk.injEq] at h
          obtain ⟨hdp, hrem⟩ := h
          subst hdp
          constructor
          · rw [hcost]; exact hfit
          · rw [List.length_reverse, List.length_cons]; omega
        · rename_i hsix
          have hlt : (poi :: acc).length < 6 := by
            simp only [List.length_cons] at hsix ⊢
            omega
          exact ih _ _ _ _ h hcost.symm hfit hlt
      · rename_i hfit
        split at h
        · exact absurd h (by simp)
        · rename_i dp0 rem0 hrec
          simp only [Option.some.injEq, Prod.mk.injEq] at h
          obtain ⟨hdp, hrem⟩ := h
          subst hdp
          exact ih _ _ _ _ hrec hused hle hlen

/-- Every day produced by the first pass respects the 300-minute effective
budget and the 6-activity cap, and the pass produces exactly one list per
day. -/
theorem distribute_first_pass_spec (num_days : Nat) :
    ∀ (pois : List POI) (days : List (List POI)) (leftover : List POI),
      distribute_first_pass pois num_days = some (days, leftover) →
      days.length = num_days ∧
      ∀ d ∈ days, day_cost d ≤ available_time ∧ d.length ≤ 6 := by
  induction num_days with
  | zero =>
    intro pois days leftover h
    rw [distribute_first_pass] at h
    simp only [Option.some.injEq, Prod.mk.injEq] at h
    obtain ⟨hdays, hleft⟩ := h
    subst hdays
    exact ⟨rfl, by intro d hd; exact absurd hd (List.not_mem_nil d)⟩
  | succ n ih =>
    intro pois days leftover h
    rw [distribute_first_pass] at h
    split at h
    · exact absurd h (by simp)
    · rename_i day_pois rem hfill
      split at h
      · exact absurd h (by simp)
      · rename_i pr hrec
        simp only [Option.some.injEq, Prod.mk.injEq] at h
        obtain ⟨hdays, hleft⟩ := h
        subst hdays
        have hday := fill_day_spec _ 0 [] day_pois rem hfill rfl (by norm_num [available_time, daily_time_budget, meal_time_reserved]) (by norm_num)
        have hrest := ih _ _ _ hrec
        refine ⟨by simp [hrest.1], ?_⟩
        intro d hd
        rcases List.mem_cons.mp hd with hd | hd
        · subst hd; exact hday
        · exact hrest.2 d hd

theorem distribute_first_pass_nil (num_days : Nat) :
    distribute_first_pass [] num_days = some (List.replicate num_days [], []) := by
  induction num_days with
  | zero => rfl
  | succ n ih =>
    rw [distribute_first_pass, fill_day]
    simp [ih, List.replicate_succ]

/-- The relation between a first-pass day and the same day after the
leftover pass: only extended, and only when it held fewer than 4 activities
at the moment something was appended. -/
def RedistExtends (d f : List POI) : Prop :=
  ∃ extra, f = d ++ extra ∧ (extra ≠ [] → d.length < 4)

theorem redistExtends_refl (d : List POI) : RedistExtends d d :=
  ⟨[], by simp, fun hc => absurd rfl hc⟩

theorem redistExtends_trans {d m f : List POI}
    (h1 : RedistExtends d m) (h2 : RedistExtends m f) : RedistExtends d f := by
  obtain ⟨e1, hm, hc1⟩ := h1
  obtain ⟨e2, hf, hc2⟩ := h2
  refine ⟨e1 ++ e2, by rw [hf, hm, List.append_assoc], ?_⟩
  intro hne
  rcases List.eq_nil_or_concat e1 with he1 | he1
  · subst he1
    simp only [List.nil_append] at hne
    have := hc2 hne
    rw [hm] at this
    simpa using this
  · exact hc1 (by rcases he1 with ⟨l, a, rfl⟩; simp)

theorem redistribute_one_forall2 (days : List (List POI)) (p : POI) :
    List.Forall₂ RedistExtends days (redistribute_one days p) := by
  induction days with
  | nil => exact List.Forall₂.nil
  | cons d rest ih =>
    rw [redistribute_one]
    split
    · rename_i hlt
      exact List.Forall₂.cons ⟨[p], rfl, fun _ => hlt⟩
        (List.forall₂_same.mpr (fun x _ => redistExtends_refl x))
    · exact List.Forall₂.cons (redistExtends_refl d) ih

theorem forall2_redistExtends_trans :
    ∀ {l1 l2 l3 : List (List POI)}, List.Forall₂ RedistExtends l1 l2 →
      List.Forall₂ RedistExtends l2 l3 → List.Forall₂ RedistExtends l1 l3 := by
  intro l1 l2 l3 h1
  induction h1 generalizing l3 with
  | nil =>
    intro h2
    cases h2
    exact List.Forall₂.nil
  | cons hab h1' ih =>
    intro h2
    cases h2 with
    | cons hbc h2' => exact List.Forall₂.cons (redistExtends_trans hab hbc) (ih h2')

theorem redistribute_forall2 (leftover : List POI) :
    ∀ (days : List (List POI)), List.Forall₂ RedistExtends days (redistribute days leftover) := by
  induction leftover with
  | nil =>
    intro days
    exact List.forall₂_same.mpr (fun x _ => redistExtends_refl x)
  | cons p ps ih =>
    intro days
    have h1 := redistribute_one_forall2 days p
    have h2 := ih (redistribute_one days p)
    exact forall2_redistExtends_trans h1 h2

theorem redistribute_one_length_le (days : List (List POI)) (p : POI)
    (h : ∀ d ∈ days, d.length ≤ 6) :
    ∀ d ∈ redistribute_one days p, d.length ≤ 6 := by
  induction days with
  | nil => intro d hd; exact absurd hd (List.not_mem_nil d)
  | cons d0 rest ih =>
    rw [redistribute_one]
    split
    · rename_i hlt
      intro d hd
      rcases List.mem_cons.mp hd with hd | hd
      · subst hd; simp only [List.length_append, List.length_cons, List.length_nil]; omega
      · exact h d (List.mem_cons_of_mem _ hd)
    · intro d hd
      rcases List.mem_cons.mp hd with hd | hd
      · subst hd; exact h d (List.mem_cons_self _ _)
      · exact ih (fun x hx => h x (List.mem_cons_of_mem _ hx)) d hd

theorem redistribute_length_le (leftover : List POI) :
    ∀ (days : List (List POI)), (∀ d ∈ days, d.length ≤ 6) →
      ∀ d ∈ redistribute days leftover, d.length ≤ 6 := by
  induction leftover with
  | nil => intro days h; exact h
  | cons p ps ih =>
    intro days h
    exact ih (redistribute_one days p) (redistribute_one_length_le days p h)

/-- The claim C2: whenever `_distribute_pois_across_days` completes, every
day of the final allocation holds at most 6 activities; every day as filled
by the first pass consumes at most `available_time = 420 - 120 = 300` minutes
(each POI's duration plus a 15-minute buffer, zero before the first
activity); and the final allocation differs from the first pass only by the
leftover-redistribution pass, which extends a day only when it held fewer
than 4 activities (such days are the only ones that may exceed the time
bound). -/
theorem distribute_pois_across_days_spec (pois : List POI) (num_days : Nat)
    (final : List (List POI))
    (h : distribute_pois_across_days pois num_days = some final) :
    (∀ d ∈ final, d.length ≤ 6) ∧
    ∃ days leftover,
      distribute_first_pass pois num_days = some (days, leftover) ∧
      final = redistribute days leftover ∧
      (∀ d ∈ days, day_cost d ≤ available_time ∧ d.length ≤ 6) ∧
      List.Forall₂ RedistExtends days final := by
  rw [distribute_pois_across_days] at h
  split at h
  · rename_i hnil
    have hpois : pois = [] := by
      cases pois with
      | nil => rfl
      | cons a l => simp at hnil
    subst hpois
    simp only [Option.some.injEq] at h
    subst h
    refine ⟨?_, List.replicate num_days [], [], distribute_first_pass_nil num_days, rfl, ?_, ?_⟩
    · intro d hd
      rw [List.eq_of_mem_replicate hd]
      norm_num
    · intro d hd
      rw [List.eq_of_mem_replicate hd]
      exact ⟨by norm_num [day_cost, available_time, daily_time_budget, meal_time_reserved],
        by norm_num⟩
    · exact List.forall₂_same.mpr (fun x _ => redistExtends_refl x)
  · split at h
    · exact absurd h (by simp)
    · rename_i days leftover hfp
      simp only [Option.some.injEq] at h
      subst h
      have hdays := distribute_first_pass_spec num_days pois days leftover hfp
      refine ⟨?_, days, leftover, hfp, rfl, hdays.2, redistribute_forall2 leftover days⟩
      exact redistribute_length_le leftover days (fun d hd => (hdays.2 d hd).2)

/-- Witness for C2 at a concrete one-POI, one-day pool. -/
theorem distribute_pois_across_days_spec_witness :
    distribute_pois_across_days [ratedPark] 1 = some [[ratedPark]] ∧
    ∀ d ∈ [[ratedPark]], d.length ≤ 6 :=
  ⟨rfl, (distribute_pois_across_days_spec [ratedPark] 1 [[ratedPark]] rfl).1⟩

/-- The `base_costs` table of `_estimate_poi_cost` (lines 862-892): four
price tiers per category. -/
def base_costs : List (String × List Int) :=
  [("restaurant", [15, 30, 50, 80]), ("attraction", [10, 20, 35, 60]),
   ("museum", [8, 15, 25, 40]), ("park", [0, 5, 10, 20]),
   ("shopping", [20, 50, 100, 200]), ("nightlife", [15, 30, 60, 100]),
   ("accommodation", [50, 100, 200, 400]), ("transport", [2, 5, 15, 30]),
   ("entertainment", [10, 25, 45, 80]), ("religious", [0, 5, 10, 20]),
   ("beach", [0, 10, 20, 40]), ("adventure", [20, 40, 80, 150])]

/-- `ItineraryPlannerAgent._estimate_poi_cost` (lines 862-892).
`poi.price_level or 2` takes the level when truthy, else 2; the schema
restricts the level to [1, 4], so the index into the 4-tier list is in
range. -/
def estimate_poi_cost (poi : POI) (trip_request : TripRequest) : ℚ :=
  let category_costs := lookupD base_costs poi.category [10, 20, 35, 60]
  let price_level := if poi.price_level.getD 0 ≠ 0 then poi.price_level.getD 0 else 2
  let cost_index := min (price_level - 1) ((category_costs.length : Int) - 1)
  let base_cost := category_costs.getD cost_index.toNat 0
  if ["restaurant", "entertainment", "accommodation"].contains poi.category then
    ((base_cost * trip_request.number_of_travelers : Int) : ℚ)
  else ((base_cost : Int) : ℚ)

/-- Python `f"{n:02d}"`: decimal rendering zero-padded to width 2. -/
def pad2 (n : Int) : String :=
  if 0 ≤ n ∧ n < 10 then "0" ++ toString n else toString n

/-- `ItineraryPlannerAgent._minutes_to_time_string` (lines 487-491), with
Python floor division and floor modulus. -/
def minutes_to_time_string (minutes : Int) : String :=
  pad2 (minutes.fdiv 60) ++ ":" ++ pad2 (minutes.fmod 60)

/-- The `time_slot` string of `_create_day_items` (lines 448-450). -/
def time_slot_string (start_time end_time duration : Int) (time_category : String) : String :=
  let base := minutes_to_time_string start_time ++ " - " ++ minutes_to_time_string end_time
    ++ " (" ++ toString duration ++ " min)"
  if time_category = "SUNRISE" ∨ time_category = "SUNSET" then
    base ++ " [" ++ time_category ++ "]"
  else base

/-- One entry of the `poi_timings` list assembled by `_create_day_items`
(lines 387-400): the POI, the time category and preferred start returned by
`_get_optimal_visit_time`, the resolved duration, and the reasoning text. -/
structure PoiTiming where
  poi : POI
  time_category : String
  optimal_start_minutes : Int
  duration : Int
  reasoning : String

/-- One iteration of the scheduling loop with its state made explicit: the
emitted item together with the resolved start, end, and the running clock
(`current_time = end_time + travel_time`) after the item. -/
structure ScheduledStep where
  item : ItineraryItem
  start_time : Int
  end_time : Int
  clock_after : Int

/-- The start-time resolution of the scheduling loop (lines 416-432): the
first activity starts at its preferred time; a later activity honors a
preferred start more than 2 hours past `previous clock + 15`, else starts at
`max(preferred, previous clock + 15)`. -/
def resolve_start (current_time : Option Int) (pt : PoiTiming) : Int :=
  match current_time with
  | none => pt.optimal_start_minutes
  | some ct =>
    if pt.optimal_start_minutes > (ct + 15) + 120 then pt.optimal_start_minutes
    else max pt.optimal_start_minutes (ct + 15)

/-- The one-time lunch-break adjustment (lines 434-442): when the start would
cross 12:00, no break was inserted yet, the POI is not a restaurant and the
clock is still before 12:00, the lunch start `max(current + 15, 12:00)` is
produced (the activity is then pushed past a one-hour lunch). -/
def lunch_push (current_time : Option Int) (lunch_break_added : Bool)
    (pt : PoiTiming) (start_time0 : Int) : Option Int :=
  match current_time with
  | none => none
  | some ct =>
    if start_time0 ≥ 12 * 60 ∧ lunch_break_added = false ∧
        pt.poi.category ≠ "restaurant" ∧ ct < 12 * 60 then
      some (max (ct + 15) (12 * 60))
    else none

/-- Transport lookup of the loop (lines 452-458): only when the item has a
successor and a maps tool is present is `_calculate_transport` consulted; a
failed lookup yields no leg and a 15-minute placeholder travel time; an
absent tool (or no successor) yields no leg and zero travel time. -/
def transport_leg (maps_tool : Option MapsApiTool) (pt : PoiTiming)
    (rest : List PoiTiming) : Option TransportOption × Int :=
  match maps_tool, rest with
  | some mt, next :: _ =>
    match calculate_transport mt pt.poi next.poi with
    | some t => (some t, t.duration_minutes)
    | none => (none, 15)
  | _, _ => (none, 0)

/-- One iteration of the scheduling loop of `_create_day_items` (lines
405-485): resolve the start time, apply the lunch push to no earlier than
13:00, set `end = start + duration`, attach the transport leg, and advance
the running clock by `end + travel_time`.  The presentation-only notes text
of each item is not modelled. -/
def schedule_step (maps_tool : Option MapsApiTool) (day_num : Int)
    (trip_request : TripRequest) (current_time : Option Int)
    (lunch_break_added : Bool) (pt : PoiTiming) (rest : List PoiTiming) :
    ScheduledStep :=
  let start_time0 := resolve_start current_time pt
  let start_time : Int :=
    match lunch_push current_time lunch_break_added pt start_time0 with
    | some lunch_start => max start_time0 (lunch_start + 60)
    | none => start_time0
  let end_time := start_time + pt.duration
  let tl := transport_leg maps_tool pt rest
  { item :=
      { day := day_num,
        time_slot := time_slot_string start_time end_time pt.duration pt.time_category,
        poi := pt.poi, estimated_duration := pt.duration,
        transport_to_next := tl.1,
        cost_estimate := some (estimate_poi_cost pt.poi trip_request),
        notes := none },
    start_time := start_time, end_time := end_time,
    clock_after := end_time + tl.2 }

/-- The `lunch_break_added` flag after one iteration. -/
def lunch_flag_after (current_time : Option Int) (lunch_break_added : Bool)
    (pt : PoiTiming) : Bool :=
  lunch_break_added ||
    (lunch_push current_time lunch_break_added pt (resolve_start current_time pt)).isSome

/-- The scheduling loop of `_create_day_items` (lines 405-485), walking the
sorted `poi_timings` while threading `current_time` (None before the first
activity) and the one-shot `lunch_break_added` flag, and stopping after any
item whose post-item clock passes 23:00 unless its category is nightlife
(lines 481-483). -/
def schedule_items (maps_tool : Option MapsApiTool) (day_num : Int)
    (trip_request : TripRequest) :
    Option Int → Bool → List PoiTiming → List ScheduledStep
  | _, _, [] => []
  | current_time, lunch_break_added, pt :: rest =>
    let step := schedule_step maps_tool day_num trip_request current_time
      lunch_break_added pt rest
    if step.clock_after > 23 * 60 ∧ pt.poi.category ≠ "nightlife" then [step]
    else
      step :: schedule_items maps_tool day_num trip_request (some step.clock_after)
        (lunch_flag_after current_time lunch_break_added pt) rest

/-- The head of a non-empty schedule is the step of the first timing. -/
theorem schedule_items_head (maps_tool : Option MapsApiTool) (day_num : Int)
    (tr : TripRequest) (ct : Option Int) (lb : Bool) (pt : PoiTiming)
    (rest : List PoiTiming) :
    (schedule_items maps_tool day_num tr ct lb (pt :: rest)).head? =
      some (schedule_step maps_tool day_num tr ct lb pt rest) := by
  simp only [schedule_items]
  split
  · rfl
  · rfl

theorem schedule_step_end_clock (maps_tool : Option MapsApiTool) (day_num : Int)
    (tr : TripRequest) (ct : Option Int) (lb : Bool) (pt : PoiTiming)
    (rest : List PoiTiming) :
    (schedule_step maps_tool day_num tr ct lb pt rest).clock_after =
      (schedule_step maps_tool day_num tr ct lb pt rest).end_time +
        (transport_leg maps_tool pt rest).2 ∧
    (schedule_step maps_tool day_num tr ct lb pt rest).item.transport_to_next =
      (transport_leg maps_tool pt rest).1 :=
  ⟨rfl, rfl⟩

/-- `ItineraryPlannerAgent._create_day_items` (lines 372-485).  The timing of
each POI comes from `_get_optimal_visit_time`, which consults the external
Vertex-AI suggestion service and falls back to rule-based timing; it is
embedded as the oracle parameter returning (time_category, preferred start,
reasoning).  A POI whose duration resolves to `None` aborts the build
(TypeError on `start_time + duration`), embedded as `none`.  The timings are
sorted by preferred start (Python's stable sort). -/
def create_day_items (day_num : Int) (day_pois : List POI) (trip_request : TripRequest)
    (timing_oracle : POI → String × Int × String) (maps_tool : Option MapsApiTool) :
    Option (List ItineraryItem) :=
  if day_pois.isEmpty then some []
  else
    match day_pois.mapM (fun poi =>
        match resolved_duration poi trip_request.group_type with
        | none => (none : Option PoiTiming)
        | some d =>
          some { poi := poi, time_category := (timing_oracle poi).1,
                 optimal_start_minutes := (timing_oracle poi).2.1,
                 duration := d, reasoning := (timing_oracle poi).2.2 }) with
    | none => none
    | some poi_timings =>
      let sorted := poi_timings.mergeSort
        (fun a b => decide (a.optimal_start_minutes ≤ b.optimal_start_minutes))
      some ((schedule_items maps_tool day_num trip_request none false sorted).map
        (fun s => s.item))

/-- A concrete trip request. -/
def exampleTrip : TripRequest :=
  { destination := "Bangalore", start_date := 0, end_date := 2,
    number_of_travelers := 2, group_type := "couple" }

/-- A concrete morning museum timing entry. -/
def museumTiming : PoiTiming :=
  { poi := unratedMuseum, time_category := "MORNING",
    optimal_start_minutes := 540, duration := 60, reasoning := "Avoid afternoon crowds" }

/-- A concrete late-morning park timing entry. -/
def parkTiming : PoiTiming :=
  { poi := ratedPark, time_category := "MORNING",
    optimal_start_minutes := 560, duration := 60, reasoning := "Standard morning visit" }

/-- The claim C7 asserts a 15-minute placeholder clock advance whenever the
transport estimate is unavailable, including when the transport collaborator
itself is absent.  The code falsifies the collaborator-absent case: with
`maps_tool = None` the loop leaves `travel_time = 0` (lines 453-458), so
after the first of two concrete items the running clock equals its end time
— an advance of 0, not 15. -/
theorem schedule_items_no_gap_when_tool_absent :
    ((schedule_items none 1 exampleTrip none false [museumTiming, parkTiming]).head?.map
      (fun s => s.clock_after - s.end_time)) = some 0 ∧ (0 : Int) ≠ 15 :=
  ⟨rfl, by decide⟩

/-- The claim C7 as amended: when the transport collaborator is present but
the lookup fails (returns nothing), the running clock advances past the
item's end by the 15-minute placeholder and the item carries no transport
leg (hence no monetary cost); when the collaborator is absent, the clock
does not advance past the end time at all (the separate 15-minute
inter-activity buffer of the scheduling walk still applies before the next
item's start), again with no transport leg. -/
theorem schedule_items_placeholder_gap (day_num : Int) (tr : TripRequest)
    (ct : Option Int) (lb : Bool) (pt next : PoiTiming) (rest : List PoiTiming) :
    (∀ mt : MapsApiTool, calculate_transport mt pt.poi next.poi = none →
      ((schedule_items (some mt) day_num tr ct lb (pt :: next :: rest)).head?.map
        (fun s => (s.clock_after - s.end_time, s.item.transport_to_next)))
        = some ((15 : Int), (none : Option TransportOption))) ∧
    ((schedule_items none day_num tr ct lb (pt :: next :: rest)).head?.map
      (fun s => (s.clock_after - s.end_time, s.item.transport_to_next)))
      = some ((0 : Int), (none : Option TransportOption)) := by
  constructor
  · intro mt hnone
    rw [schedule_items_head]
    have htl : transport_leg (some mt) pt (next :: rest) = (none, 15) := by
      have hred : transport_leg (some mt) pt (next :: rest) =
          match calculate_transport mt pt.poi next.poi with
          | some t => (some t, t.duration_minutes)
          | none => (none, 15) := rfl
      rw [hred, hnone]
    obtain ⟨hclock, htr⟩ := schedule_step_end_clock (some mt) day_num tr ct lb pt (next :: rest)
    simp only [Option.map_some', hclock, htr, htl]
    simp
  · rw [schedule_items_head]
    have htl : transport_leg none pt (next :: rest) = (none, 0) := rfl
    obtain ⟨hclock, htr⟩ := schedule_step_end_clock none day_num tr ct lb pt (next :: rest)
    simp only [Option.map_some', hclock, htr, htl]
    simp

/-- Witness for the amended C7 at a concrete two-item day and a directions
oracle that always fails. -/
theorem schedule_items_placeholder_gap_witness :
    calculate_transport ⟨fun _ _ => none⟩ museumTiming.poi parkTiming.poi = none ∧
    ((schedule_items (some ⟨fun _ _ => none⟩) 1 exampleTrip none false
        [museumTiming, parkTiming]).head?.map
      (fun s => (s.clock_after - s.end_time, s.item.transport_to_next)))
      = some ((15 : Int), (none : Option TransportOption)) :=
  ⟨rfl, (schedule_items_placeholder_gap 1 exampleTrip none false museumTiming parkTiming
    []).1 ⟨fun _ _ => none⟩ rfl⟩

/-- A concrete nightlife timing entry ending past 23:00. -/
def nightMarketTiming : PoiTiming :=
  { poi := { name := "Night Market", category := "nightlife",
             coordinates := { latitude := 12.98, longitude := 77.6 },
             rating := some 4, price_level := some 2,
             estimated_visit_duration := some 120 },
    time_category := "NIGHT", optimal_start_minutes := 1320, duration := 120,
    reasoning := "Evening entertainment" }

/-- A concrete non-nightlife timing entry sorted after the nightlife one. -/
def lateMuseumTiming : PoiTiming :=
  { poi := unratedMuseum, time_category := "NIGHT",
    optimal_start_minutes := 1330, duration := 30, reasoning := "Late visit" }

/-- The claim C8 asserts that once the running clock exceeds 23:00 no further
non-nightlife item is added.  The code checks the category of the item just
added, not of the next one (lines 481-483), so after a nightlife item whose
clock passes 23:00 the loop continues and adds a following non-nightlife
item: on this concrete input the clock reaches 1440 (> 1380) after the
nightlife item and a museum item is still added afterwards. -/
theorem schedule_items_adds_non_nightlife_past_2300 :
    ((schedule_items none 1 exampleTrip none false
        [nightMarketTiming, lateMuseumTiming]).map
      (fun s => (s.item.poi.category, s.clock_after)))
      = [("nightlife", 1440), ("museum", 1485)] ∧
    (1440 : Int) > 23 * 60 :=
  ⟨rfl, by decide⟩

/-- The claim C8 as amended: the scheduling loop continues past an item whose
post-item running clock exceeds 23:00 (1380 minutes) only when that item's
category is nightlife; equivalently, in every produced schedule any item that
is followed by a further item and whose clock exceeds 23:00 is a nightlife
item (so a non-nightlife item whose clock passes 23:00 is always the day's
last, while an item of any category may still be appended right after a
nightlife item past 23:00). -/
theorem schedule_items_past_2300_chain (mt : Option MapsApiTool) (day_num : Int)
    (tr : TripRequest) :
    ∀ (ct : Option Int) (lb : Bool) (timings : List PoiTiming),
      List.Chain' (fun a _ => a.clock_after > 23 * 60 → a.item.poi.category = "nightlife")
        (schedule_items mt day_num tr ct lb timings) := by
  intro ct lb timings
  induction timings generalizing ct lb with
  | nil => exact List.chain'_nil
  | cons pt rest ih =>
    simp only [schedule_items]
    split
    · exact List.chain'_singleton _
    · rename_i hc
      refine List.chain'_cons'.mpr ⟨?_, ih _ _⟩
      intro y hy hclock
      by_contra hcat
      have hpoi : (schedule_step mt day_num tr ct lb pt rest).item.poi = pt.poi := rfl
      rw [hpoi] at hcat
      exact hc ⟨hclock, hcat⟩

/-- `ItineraryPlannerAgent._update_transport_info` (lines 1010-1032): each
item except the last gets the transport leg to its successor; the last
item's leg is cleared. -/
def update_transport_info (maps_tool : MapsApiTool) :
    List ItineraryItem → List ItineraryItem
  | [] => []
  | [item] => [{ item with transport_to_next := none }]
  | item :: next :: rest =>
    { item with transport_to_next := calculate_transport maps_tool item.poi next.poi } ::
      update_transport_info maps_tool (next :: rest)

/-- `ItineraryPlannerAgent.optimize_itinerary` (lines 187-261), success path:
per day, a day with at most one item is kept as is, otherwise its items are
re-sequenced and their transport legs refreshed and the day total recomputed;
a fresh `Itinerary` value is then constructed (the input is not mutated) with
the same identifier, the recomputed days and total, `version + 1`, and the
same metadata. -/
def optimize_itinerary (itinerary : Itinerary) (maps_tool : MapsApiTool) : Itinerary :=
  let optimized_days := itinerary.days.map (fun day_plan =>
    if day_plan.items.length ≤ 1 then day_plan
    else
      let updated_items := update_transport_info maps_tool (optimize_daily_route day_plan.items)
      { day := day_plan.day, date := day_plan.date, items := updated_items,
        weather := day_plan.weather,
        total_estimated_cost := calculate_day_cost updated_items,
        notes := day_plan.notes })
  { id := itinerary.id, trip_request := itinerary.trip_request,
    days := optimized_days,
    total_cost := calculate_total_cost optimized_days,
    version := itinerary.version + 1,
    metadata := itinerary.metadata }

/-- The claim C6: re-optimization builds a new `Itinerary` value (the
embedding is purely functional, matching the source, which constructs a
fresh object and never writes to the input) whose version is exactly the
input's version plus 1 and whose identifier equals the input's identifier. -/
theorem optimize_itinerary_version_id (itinerary : Itinerary) (maps_tool : MapsApiTool) :
    (optimize_itinerary itinerary maps_tool).version = itinerary.version + 1 ∧
    (optimize_itinerary itinerary maps_tool).id = itinerary.id :=
  ⟨rfl, rfl⟩

end TripPlanner
